import Mathlib

/-!
# Verification of the `spi` repository (solar tracker pipeline + peripheral angle writer)

Shallow embedding of `src/iot_soltrack.py` and `src/spi.py`.

Conventions of the embedding:
* Timestamps are natural numbers counting minutes since 1970-01-01 00:00
  (naive local time, as in the Python sources, which use naive `datetime`s
  at minute-or-coarser resolution everywhere; the `strftime`/`to_datetime`
  round trip of `create_time_series` truncates to whole minutes and is the
  identity at this resolution).
* Angles and physical quantities are rationals (the Python floats never
  reach a precision-sensitive operation in the claims under study).
* Calls into the external `pvlib` modeling library (ephemeris, clear sky,
  irradiance transposition, cell temperature, inverter model) are fields of
  a `Pvlib` record of abstract functions; theorems quantify over them.
  `pvlib.pvsystem.FixedMount.get_orientation` is modelled concretely from
  its documented behaviour (the mount's constant angles, broadcast over the
  solar-position index).
* Python's `UnboundLocalError` (reading a local variable that was assigned
  on no executed branch) is modelled by the `PyErr.unboundLocal` error value.
-/

namespace Spi

/-- Clock hour containing a timestamp (hours since the epoch).
`pandas` 1-hour resample bins are aligned to whole clock hours, which in the
minute count are the multiples of 60. -/
def hourIndex (t : Nat) : Nat := t / 60

/-- Calendar day containing a timestamp (days since the epoch). -/
def dayIndex (t : Nat) : Nat := t / 1440

/-- Hour of day, 0..23, of a timestamp (`DatetimeIndex.hour`). -/
def hourOfDay (t : Nat) : Nat := t % 1440 / 60

/-- Proleptic Gregorian civil date `(year, month, day)` of a day count from
1970-01-01 (the standard `civil_from_days` algorithm). -/
def civilFromDays (z0 : Nat) : Nat × Nat × Nat :=
  let z := z0 + 719468
  let era := z / 146097
  let doe := z % 146097
  let yoe := (doe - doe / 1460 + doe / 36524 - doe / 146097) / 365
  let y := yoe + era * 400
  let doy := doe - (365 * yoe + yoe / 4 - yoe / 100)
  let mp := (5 * doy + 2) / 153
  let d := doy - (153 * mp + 2) / 5 + 1
  let m := if mp < 10 then mp + 3 else mp - 9
  (if m ≤ 2 then y + 1 else y, m, d)

/-- Day of month (1..31) of a timestamp (Python's `datetime.day` /
`DatetimeIndex.day`). -/
def dayOfMonth (t : Nat) : Nat := (civilFromDays (dayIndex t)).2.2

/-- Month (1..12) of a timestamp (Python's `DatetimeIndex.month`). -/
def monthOf (t : Nat) : Nat := (civilFromDays (dayIndex t)).2.1

/-! ## `src/spi.py` — peripheral angle writer -/

/-- `src/spi.py` line 9. -/
def angle1 : Nat := 3000

/-- `src/spi.py` line 10. -/
def angle2 : Nat := 4560

/-- One angle serialized as its big-endian byte pair.  `src/spi.py` writes
`int(angle / 256)` (true division then truncation toward zero), which on
the nonnegative machine-word-sized angles involved equals natural-number
division by 256. -/
def packAngle (a : Nat) : List Nat := [a / 256, a % 256]

/-- `src/spi.py` line 11:
`to_send = [int(angle1 / 256), angle1 % 256, int(angle2 / 256), angle2 % 256]`. -/
def to_send : List Nat := [angle1 / 256, angle1 % 256, angle2 / 256, angle2 % 256]

/-! ## `create_time_series` (`src/iot_soltrack.py` lines 70–94) -/

/-- `pd.date_range(start, end, freq='1H')` for `start ≤ end`: the hourly
timestamps from `s` up to and including `e`. -/
def date_range_1H (s e : Nat) : List Nat :=
  (List.range ((e - s) / 60 + 1)).map (fun i => s + 60 * i)

/-- `create_time_series` (`src/iot_soltrack.py` lines 70–94), as a function of
the current wall clock `now` (`datetime.now()`).
`start_date = (now + timedelta(days=1)).replace(hour=0, minute=0, ...)` is the
start of the calendar day after `now`; `end_date = start_date + timedelta(days=1)
- timedelta(hours=1)`.  The `strftime('%Y-%m-%d %H:%M')` / `pd.to_datetime`
round trip is the identity at minute resolution. -/
def create_time_series (now : Nat) : List Nat :=
  let start_date := ((now + 1440) / 1440) * 1440
  let end_date := start_date + 1440 - 60
  date_range_1H start_date end_date

/-! ## Data model of the tracker pipeline -/

/-- Error values for the Python failure modes reachable in the embedded code:
reading a local variable bound on no executed branch (`UnboundLocalError`),
and indexing past the end of a list (`IndexError`). -/
inductive PyErr where
  | unboundLocal (var : String)
  | indexError
deriving Repr, DecidableEq

/-- One row of the `pvlib` solar-position frame (`loc.get_solarposition`):
columns `apparent_zenith`, `zenith`, `apparent_elevation`, `elevation`,
`azimuth`, `equation_of_time`, all in degrees (values are rationals here). -/
structure SolarPos where
  apparent_zenith : ℚ
  zenith : ℚ
  apparent_elevation : ℚ
  elevation : ℚ
  azimuth : ℚ
  equation_of_time : ℚ
deriving Repr, DecidableEq, Inhabited

/-- The all-zero solar-position row written by
`solar_position[solar_position['apparent_elevation']<0] = 0`. -/
def zeroSolarPos : SolarPos :=
  { apparent_zenith := 0, zenith := 0, apparent_elevation := 0, elevation := 0,
    azimuth := 0, equation_of_time := 0 }

/-- A weather table (the columns built by `get_location_data`; the clear-sky
and TMY-derived frames are modelled with the same record, with the columns the
corresponding pandas frame lacks left empty — they are never read on those
code paths). -/
structure Weather where
  temperature : List ℚ
  ghi : List ℚ
  dni : List ℚ
  dhi : List ℚ
  wind_speed : List ℚ
  wind_direction : List ℚ
  precipitation : List ℚ
  snow_fraction : List ℚ
  snow_load : List ℚ
deriving Repr, DecidableEq, Inhabited

/-- One row of the tracker-orientation table (`surface_tilt`,
`surface_azimuth`, in degrees). -/
structure Orientation where
  surface_tilt : ℚ
  surface_azimuth : ℚ
deriving Repr, DecidableEq, Inhabited

/-- The DC/AC power table produced by `calculate_pv_generation`. -/
structure PvPower where
  dc : List ℚ
  ac : List ℚ
deriving Repr, DecidableEq, Inhabited

/-- One row of the PVGIS typical-meteorological-year table; only the columns
read downstream (`temp_air`, `wind_speed`, and the irradiance components) are
modelled. -/
structure TmyRow where
  temp_air : ℚ
  wind_speed : ℚ
  ghi : ℚ
  dni : ℚ
  dhi : ℚ
deriving Repr, DecidableEq, Inhabited

/-- The parsed JSON body of the Meteoblue forecast response: the parallel
arrays under `data_1h` that `get_location_data` reads. -/
structure WeatherResponse where
  time : List Nat
  temperature : List ℚ
  ghi_instant : List ℚ
  dni_instant : List ℚ
  dif_instant : List ℚ
  windspeed : List ℚ
  winddirection : List ℚ
  precipitation : List ℚ
  snowfraction : List ℚ
deriving Repr, DecidableEq, Inhabited

/-- The external `pvlib` surface crossed by the embedded code.  These are
third-party modeling functions (ephemeris, clear sky, irradiance
transposition, cell temperature, PV and inverter models, PVGIS TMY download);
theorems quantify over this record.  `get_solarposition` is per-timestamp (the
pvlib frame is indexed by the query times, so the call is a pointwise map over
the time sequence). -/
structure Pvlib where
  get_solarposition : ℚ → ℚ → Nat → SolarPos
  get_clearsky : ℚ → ℚ → List Nat → Weather
  get_total_irradiance : List Orientation → Weather → List (Nat × SolarPos) → List ℚ
  sapm_parameters : ℚ × ℚ × ℚ
  sapm_cell : List ℚ → List ℚ → List ℚ → ℚ × ℚ × ℚ → List ℚ
  pvwatts_dc : List ℚ → List ℚ → ℚ → ℚ → List ℚ
  pvwatts_ac : List ℚ → ℚ → List ℚ
  get_pvgis_tmy : ℚ → ℚ → List (Nat × TmyRow)

/-! ## `get_location_data` (`src/iot_soltrack.py` lines 18–68) -/

/-- The `[24:48]` slice applied to every hourly array of the response. -/
def slice_second_day (l : List ℚ) : List ℚ := (l.drop 24).take 24

/-- `get_location_data` (lines 18–68): slice every hourly array to the second
day (indices 24–47), derive `snow_load = [precipitation[t]*snow_fraction[t]
for t in range(24)]`, and assemble the weather table.  The comprehension
raises `IndexError` when the sliced arrays hold fewer than 24 entries. -/
def get_location_data (resp : WeatherResponse) : Except PyErr (List Nat × Weather) :=
  let time := (resp.time.drop 24).take 24
  let temperature := slice_second_day resp.temperature
  let GHI := slice_second_day resp.ghi_instant
  let DNI := slice_second_day resp.dni_instant
  let DHI := slice_second_day resp.dif_instant
  let wind_speed := slice_second_day resp.windspeed
  let wind_direction := slice_second_day resp.winddirection
  let precipitation := slice_second_day resp.precipitation
  let snow_fraction := slice_second_day resp.snowfraction
  if precipitation.length < 24 ∨ snow_fraction.length < 24 then
    .error .indexError
  else
    let snow_load := (List.range 24).map
      (fun t => precipitation.getD t 0 * snow_fraction.getD t 0)
    .ok (time,
      { temperature := temperature, ghi := GHI, dni := DNI, dhi := DHI,
        wind_speed := wind_speed, wind_direction := wind_direction,
        precipitation := precipitation, snow_fraction := snow_fraction,
        snow_load := snow_load })

/-! ## Mount orientation policies (`src/iot_soltrack.py` lines 96–163) -/

/-- `series.resample('1h').first()` looked up at clock hour `h`: the first
sample of the series falling in that hour (for the time-ordered series the
code builds, list order is time order). -/
def resample_1h_first (s : List (Nat × ℚ)) (h : Nat) : Option ℚ :=
  ((s.filter (fun p => hourIndex p.1 = h)).head?).map Prod.snd

/-- `subset.reindex(s.index, method='ffill')` after the hourly resample: each
timestamp of the original index receives the value of the hourly bin it lies
in (`floor_hour t`, the closest bin at or before `t`; that bin is nonempty
because it contains `t` itself), i.e. a zero-order hold of the first sample of
each clock hour. -/
def zoh_hourly (s : List (Nat × ℚ)) : List (Nat × ℚ) :=
  s.map (fun p => (p.1, (resample_1h_first s (hourIndex p.1)).getD 0))

/-- The tracker-mount class of `src/iot_soltrack.py` lines 96–129 (it carries
no per-instance data; all behaviour is in `get_orientation`). -/
structure DiscontoniousDualAxisTrackerMount

/-- `DiscontoniousDualAxisTrackerMount.get_orientation` (lines 101–129):
resample zenith and azimuth to one value per hour (first sample of each hour),
forward-fill across the original index, and pair the two columns into the
`tilt`/`azimuth` table. -/
def DiscontoniousDualAxisTrackerMount.get_orientation
    (_self : DiscontoniousDualAxisTrackerMount)
    (solar_zenith solar_azimuth : List (Nat × ℚ)) : List Orientation :=
  let tilt := zoh_hourly solar_zenith
  let azimuth := zoh_hourly solar_azimuth
  List.zipWith (fun a b => { surface_tilt := a.2, surface_azimuth := b.2 }) tilt azimuth

/-- `pvlib.pvsystem.FixedMount` (external): a mount with constant angles. -/
structure FixedMount where
  surface_tilt : ℚ
  surface_azimuth : ℚ

/-- External `pvlib` behaviour: `FixedMount.get_orientation` yields the
mount's constant angles regardless of the solar position, broadcast over the
solar-position index (pvlib returns them as scalars that pandas broadcasts
over the time-indexed frames downstream; the broadcast table is the model). -/
def FixedMount.get_orientation (m : FixedMount)
    (solar_zenith _solar_azimuth : List (Nat × ℚ)) : List Orientation :=
  solar_zenith.map (fun _ => { surface_tilt := m.surface_tilt,
                               surface_azimuth := m.surface_azimuth })

/-- Line 149: `solar_position[solar_position['apparent_elevation']<0] = 0` —
every row with negative apparent elevation has all its columns set to 0 (the
index itself is untouched). -/
def clamp_night (sp : List (Nat × SolarPos)) : List (Nat × SolarPos) :=
  sp.map (fun p => if p.2.apparent_elevation < 0 then (p.1, zeroSolarPos) else p)

/-- Line 154's tilt limit: `lambda x: 30 if x>30 else x`. -/
def limit_tilt (x : ℚ) : ℚ := if x > 30 then 30 else x

/-- The message printed by lines 160–162 (the quote characters of the original
literal are elided). -/
def mount_type_error_log : String :=
  "ERROR: The mounting type you specified is not supported. Mounting type can be fixed or dual_axis."

instance {ε α : Type} [DecidableEq ε] [DecidableEq α] : DecidableEq (Except ε α) := fun a b =>
  match a, b with
  | .error e, .error f =>
      if h : e = f then .isTrue (by rw [h]) else .isFalse (by intro hc; cases hc; exact h rfl)
  | .error _, .ok _ => .isFalse (by intro hc; cases hc)
  | .ok _, .error _ => .isFalse (by intro hc; cases hc)
  | .ok x, .ok y =>
      if h : x = y then .isTrue (by rw [h]) else .isFalse (by intro hc; cases hc; exact h rfl)

/-- Result of `get_tracker_position`: the printed log lines and either the
orientation table or the Python error the call raises. -/
structure TrackOut where
  logs : List String
  result : Except PyErr (List Orientation)
deriving Repr, DecidableEq

/-- `get_tracker_position` (lines 131–163): compute the solar position for the
time sequence, zero out night rows, then dispatch on `mount_type` through the
three sequential `if` statements of the source.  When no branch assigns
`tracker_data`, the final `return tracker_data` raises `UnboundLocalError`. -/
def get_tracker_position (ext : Pvlib) (lat lon : ℚ) (time_interval : List Nat)
    (mount_type : String) : TrackOut :=
  let solar_position := time_interval.map (fun t => (t, ext.get_solarposition lat lon t))
  let solar_position := clamp_night solar_position
  let tracker_data : Option (List Orientation) := none
  let tracker_data :=
    if mount_type = "dual_axis" then
      let mount := DiscontoniousDualAxisTrackerMount.mk
      let td := mount.get_orientation
        (solar_position.map (fun p => (p.1, p.2.apparent_zenith)))
        (solar_position.map (fun p => (p.1, p.2.azimuth)))
      some (td.map (fun o => { o with surface_tilt := limit_tilt o.surface_tilt }))
    else tracker_data
  let tracker_data :=
    if mount_type = "fixed" then
      let mount : FixedMount := { surface_tilt := 30, surface_azimuth := 180 }
      some (mount.get_orientation
        (solar_position.map (fun p => (p.1, p.2.apparent_zenith)))
        (solar_position.map (fun p => (p.1, p.2.azimuth))))
    else tracker_data
  let logs :=
    if mount_type ≠ "fixed" ∧ mount_type ≠ "dual_axis" then [mount_type_error_log] else []
  { logs := logs,
    result := match tracker_data with
      | some td => .ok td
      | none => .error (.unboundLocal "tracker_data") }

/-! ## Irradiance and PV power (`src/iot_soltrack.py` lines 165–229) -/

/-- `get_tracker_poa_global` (lines 165–196): a fresh (unclamped) ephemeris
call for the same time sequence, then `pvlib.irradiance.get_total_irradiance`
with `model='isotropic'` (the model name is part of the external call, which
is abstract here), keeping the `poa_global` column. -/
def get_tracker_poa_global (ext : Pvlib) (lat lon : ℚ) (time_interval : List Nat)
    (tracker_data : List Orientation) (weather : Weather) : List ℚ :=
  let solar_position := time_interval.map (fun t => (t, ext.get_solarposition lat lon t))
  ext.get_total_irradiance tracker_data weather solar_position

/-- `calculate_pv_generation` (lines 198–229): sapm open-rack glass/polymer
cell temperature, then the pvwatts DC model with `gamma_pdc = -0.004`,
`nameplate = 12e3`, and the pvwatts inverter with `pdc0 = 10000/0.96`. -/
def calculate_pv_generation (ext : Pvlib) (tracker_poa : List ℚ)
    (weather : Weather) : PvPower :=
  let parameters := ext.sapm_parameters
  let cell_temperature := ext.sapm_cell tracker_poa weather.temperature
    weather.wind_speed parameters
  let gamma_pdc : ℚ := -(4 / 1000)
  let nameplate : ℚ := 12000
  let pdc0 : ℚ := 10000 / (96 / 100)
  let dc := ext.pvwatts_dc tracker_poa cell_temperature nameplate gamma_pdc
  let ac := ext.pvwatts_ac dc pdc0
  { dc := dc, ac := ac }

/-! ## `main` (`src/iot_soltrack.py` lines 231–274) -/

/-- `l.sum / l.length` — the mean pandas computes per groupby bucket (each
bucket is nonempty by construction). -/
def listMean (l : List ℚ) : ℚ := l.sum / l.length

/-- Lines 262–267 of `main` (`without_forecast` branch): filter the TMY table
to the rows whose day-of-month and month match `t0`, average every column by
hour of day (`groupby(weather.index.hour).mean()`, whose keys are the distinct
hours present, in increasing order), and rename `temp_air` to `temperature`.
Forecast-only columns absent from the TMY frame are left empty; they are
never read on this path. -/
def tmy_day_weather (df : List (Nat × TmyRow)) (t0 : Nat) : Weather :=
  let sel := df.filter
    (fun p => decide (dayOfMonth p.1 = dayOfMonth t0 ∧ monthOf p.1 = monthOf t0))
  let hours := (List.range 24).filter
    (fun h => sel.any (fun p => hourOfDay p.1 == h))
  let col := fun (f : TmyRow → ℚ) =>
    hours.map (fun h =>
      listMean ((sel.filter (fun p => hourOfDay p.1 == h)).map (fun p => f p.2)))
  { temperature := col TmyRow.temp_air, wind_speed := col TmyRow.wind_speed,
    ghi := col TmyRow.ghi, dni := col TmyRow.dni, dhi := col TmyRow.dhi,
    wind_direction := [], precipitation := [], snow_fraction := [],
    snow_load := [] }

/-- The message printed by line 270. -/
def timeseries_error_log : String := "Error: Timeseries contains more than one day"

/-- Observable outcome of one `main` invocation: whether the weather-forecast
HTTP fetch was issued, the log lines printed, and either the returned
`[tracker_data, pv_power]` pair or the Python error raised. -/
structure MainOut where
  weather_fetched : Bool
  logs : List String
  result : Except PyErr (List Orientation × PvPower)
deriving Repr, DecidableEq

/-- The tail of `main`'s `without_forecast` branch (lines 264–274): the
calendar-day guard `if (time[0].day == time[23].day)`, the TMY day-weather
aggregation and PV computation on the then-branch, the error print on the
else-branch, and the final `return [tracker_data, pv_power]` — on the
else-branch no statement bound `pv_power`, so the return raises
`UnboundLocalError`. -/
def without_forecast_day_guard (ext : Pvlib) (time : List Nat)
    (tracker_data : List Orientation) (tracker_poa : List ℚ)
    (tmy : List (Nat × TmyRow)) (logs : List String) : MainOut :=
  if dayOfMonth (time.getD 0 0) = dayOfMonth (time.getD 23 0) then
    let weather := tmy_day_weather tmy (time.getD 0 0)
    let pv_power := calculate_pv_generation ext tracker_poa weather
    { weather_fetched := false, logs := logs, result := .ok (tracker_data, pv_power) }
  else
    { weather_fetched := false, logs := logs ++ [timeseries_error_log],
      result := .error (.unboundLocal "pv_power") }

/-- `main` (lines 231–274), as a function of the external world: the `pvlib`
surface `ext`, the wall clock `now`, and the forecast response body `resp`.
The source's two sequential `if` statements test mutually exclusive string
values, so they are modelled as an if/else-if chain; when neither branch runs,
`return [tracker_data, pv_power]` reads the never-bound `tracker_data` and
raises `UnboundLocalError`.  A Python error raised inside a branch propagates
out of `main` before anything later runs. -/
def main (ext : Pvlib) (now : Nat) (resp : WeatherResponse)
    (lat lon : ℚ) (mount_type product_version : String) : MainOut :=
  if product_version = "with_forecast" then
    match get_location_data resp with
    | .error e => { weather_fetched := true, logs := [], result := .error e }
    | .ok (time, weather) =>
      let tp := get_tracker_position ext lat lon time mount_type
      match tp.result with
      | .error e => { weather_fetched := true, logs := tp.logs, result := .error e }
      | .ok tracker_data =>
        let tracker_poa := get_tracker_poa_global ext lat lon time tracker_data weather
        let pv_power := calculate_pv_generation ext tracker_poa weather
        { weather_fetched := true, logs := tp.logs,
          result := .ok (tracker_data, pv_power) }
  else if product_version = "without_forecast" then
    let time := create_time_series now
    let weather := ext.get_clearsky lat lon time
    let tp := get_tracker_position ext lat lon time mount_type
    match tp.result with
    | .error e => { weather_fetched := false, logs := tp.logs, result := .error e }
    | .ok tracker_data =>
      let tracker_poa := get_tracker_poa_global ext lat lon time tracker_data weather
      let tmy := ext.get_pvgis_tmy lat lon
      without_forecast_day_guard ext time tracker_data tracker_poa tmy tp.logs
  else
    { weather_fetched := false, logs := [], result := .error (.unboundLocal "tracker_data") }

/-! ## Derived accessors used to state the theorems -/

/-- The row-level effect of `clamp_night` on one solar-position row. -/
def clampRow (r : SolarPos) : SolarPos :=
  if r.apparent_elevation < 0 then zeroSolarPos else r

/-- The first timestamp of the input sequence falling in the clock hour of
`t` (for the time-ordered sequences the program builds, this is the first
solar-position sample of that hour). -/
def first_sample_of_hour (time : List Nat) (t : Nat) : Option Nat :=
  (time.filter (fun u => hourIndex u = hourIndex t)).head?

/-- Closed form of the `dual_axis` orientation table: each timestamp `t`
receives the night-clamped solar position of the first sample of its own
clock hour, with the tilt limited to 30°. -/
def dual_axis_rows (ext : Pvlib) (lat lon : ℚ) (time : List Nat) : List Orientation :=
  time.map (fun t =>
    let r := ((first_sample_of_hour time t).map
      (fun u => clampRow (ext.get_solarposition lat lon u))).getD zeroSolarPos
    { surface_tilt := limit_tilt r.apparent_zenith, surface_azimuth := r.azimuth })

/-! ## Concrete fixtures for the closed witness statements -/

/-- A concrete external surface: the apparent elevation decreases with time
(becoming negative from minute 60 on), so both day and night rows occur. -/
def testPvlib : Pvlib where
  get_solarposition := fun _ _ t =>
    { apparent_zenith := (t : ℚ) + 40, zenith := (t : ℚ) + 41,
      apparent_elevation := 50 - (t : ℚ), elevation := 49 - (t : ℚ),
      azimuth := 2 * (t : ℚ) + 90, equation_of_time := 1 }
  get_clearsky := fun _ _ _ => default
  get_total_irradiance := fun td _ _ => td.map (fun _ => 100)
  sapm_parameters := (-(7/2), -(59/1000), 3)
  sapm_cell := fun poa _ _ _ => poa
  pvwatts_dc := fun poa _ _ _ => poa
  pvwatts_ac := fun dc _ => dc
  get_pvgis_tmy := fun _ _ => [(0, { temp_air := 10, wind_speed := 2, ghi := 0, dni := 0, dhi := 0 })]

/-- A concrete forecast response: 48 hourly entries per array, with
precipitation 2.0 and snow fraction 0.5 everywhere. -/
def testResp : WeatherResponse where
  time := List.range 48
  temperature := List.replicate 48 20
  ghi_instant := List.replicate 48 100
  dni_instant := List.replicate 48 200
  dif_instant := List.replicate 48 50
  windspeed := List.replicate 48 3
  winddirection := List.replicate 48 180
  precipitation := List.replicate 48 2
  snowfraction := List.replicate 48 (1/2)

/-- A solar-position row with negative apparent elevation (night). -/
def testNightRow : SolarPos :=
  { apparent_zenith := 130, zenith := 131, apparent_elevation := -5,
    elevation := -6, azimuth := 270, equation_of_time := 1 }

/-- A 24-stamp hourly range crossing midnight (23:00 of epoch day 1 through
22:00 of day 2): first and last timestamps fall on different calendar days. -/
def testBadTime : List Nat := (List.range 24).map (fun i => 1380 + 60 * i)

/-- The `[24:48]` slice of `testResp.time`. -/
def testTime : List Nat := (List.range 48).drop 24

/-- The weather table `get_location_data` assembles from `testResp`. -/
def testWeather : Weather :=
  match get_location_data testResp with
  | .ok p => p.2
  | .error _ => default

/-! # Theorems -/

/-! ## Facts about `create_time_series` -/

theorem create_time_series_eq (now : Nat) :
    create_time_series now =
      (List.range 24).map (fun i => (dayIndex now + 1) * 1440 + 60 * i) := by
  have h1 : (now + 1440) / 1440 = now / 1440 + 1 := Nat.add_div_right now (by norm_num)
  have h2 : ∀ a : Nat, ((a + 1) * 1440 + 1440 - 60 - (a + 1) * 1440) / 60 + 1 = 24 := by
    intro a; omega
  simp only [create_time_series, date_range_1H, dayIndex, h1, h2]

theorem create_time_series_length (now : Nat) :
    (create_time_series now).length = 24 := by
  rw [create_time_series_eq]; simp

theorem create_time_series_getD (now : Nat) (i : Nat) (h : i < 24) :
    (create_time_series now).getD i 0 = (dayIndex now + 1) * 1440 + 60 * i := by
  rw [create_time_series_eq]
  rw [List.getD_eq_getElem?_getD]
  rw [List.getElem?_map]
  simp [List.getElem?_range, h]

theorem create_time_series_same_day (now : Nat) (i : Nat) (h : i < 24) :
    dayIndex ((create_time_series now).getD i 0) = dayIndex now + 1 := by
  rw [create_time_series_getD now i h]
  unfold dayIndex
  omega

/-! ## Facts about `get_tracker_position` -/

theorem clamp_night_eq_map (sp : List (Nat × SolarPos)) :
    clamp_night sp = sp.map (fun p => (p.1, clampRow p.2)) := by
  unfold clamp_night clampRow
  refine List.map_congr_left ?_
  rintro ⟨a, b⟩ _
  by_cases h : b.apparent_elevation < 0 <;> simp [h]

theorem get_tracker_position_fixed_eq (ext : Pvlib) (lat lon : ℚ) (time : List Nat) :
    get_tracker_position ext lat lon time "fixed" =
      { logs := [],
        result := .ok (List.replicate time.length
          { surface_tilt := 30, surface_azimuth := 180 }) } := by
  unfold get_tracker_position FixedMount.get_orientation
  simp [Function.comp_def, List.map_const', clamp_night_eq_map]

theorem resample_1h_first_map (time : List Nat) (f : Nat → ℚ) (h : Nat) :
    resample_1h_first (time.map (fun t => (t, f t))) h =
      ((time.filter (fun u => hourIndex u = h)).head?).map f := by
  unfold resample_1h_first
  rw [List.filter_map, List.head?_map]
  rw [Option.map_map]
  rfl

theorem zoh_hourly_map (time : List Nat) (f : Nat → ℚ) :
    zoh_hourly (time.map (fun t => (t, f t))) =
      time.map (fun t =>
        (t, (((time.filter (fun u => hourIndex u = hourIndex t)).head?).map f).getD 0)) := by
  unfold zoh_hourly
  rw [List.map_map]
  refine List.map_congr_left ?_
  intro t _
  simp only [Function.comp]
  rw [resample_1h_first_map]

theorem option_getD_zenith (o : Option Nat) (g : Nat → SolarPos) :
    (o.map (fun u => (g u).apparent_zenith)).getD 0 =
      ((o.map g).getD zeroSolarPos).apparent_zenith := by
  cases o <;> simp [zeroSolarPos]

theorem option_getD_azimuth (o : Option Nat) (g : Nat → SolarPos) :
    (o.map (fun u => (g u).azimuth)).getD 0 =
      ((o.map g).getD zeroSolarPos).azimuth := by
  cases o <;> simp [zeroSolarPos]

theorem get_tracker_position_dual_eq (ext : Pvlib) (lat lon : ℚ) (time : List Nat) :
    get_tracker_position ext lat lon time "dual_axis" =
      { logs := [], result := .ok (dual_axis_rows ext lat lon time) } := by
  have hz := zoh_hourly_map time
    (fun t => (clampRow (ext.get_solarposition lat lon t)).apparent_zenith)
  have ha := zoh_hourly_map time
    (fun t => (clampRow (ext.get_solarposition lat lon t)).azimuth)
  unfold get_tracker_position DiscontoniousDualAxisTrackerMount.get_orientation
  simp [clamp_night_eq_map, List.map_map, Function.comp_def, hz, ha,
    List.zipWith_map_left, List.zipWith_map_right, List.zipWith_same,
    option_getD_zenith, option_getD_azimuth, dual_axis_rows, first_sample_of_hour]

theorem limit_tilt_le (x : ℚ) : limit_tilt x ≤ 30 := by
  unfold limit_tilt
  split
  · exact le_refl 30
  · linarith [not_lt.mp (by assumption : ¬x > 30)]

theorem dual_axis_rows_getD (ext : Pvlib) (lat lon : ℚ) (time : List Nat)
    (i : Nat) (hi : i < time.length) :
    (dual_axis_rows ext lat lon time).getD i default =
      (let r := ((first_sample_of_hour time (time.getD i 0)).map
          (fun u => clampRow (ext.get_solarposition lat lon u))).getD zeroSolarPos
       { surface_tilt := limit_tilt r.apparent_zenith, surface_azimuth := r.azimuth }) := by
  unfold dual_axis_rows
  rw [List.getD_eq_getElem?_getD, List.getElem?_map, List.getElem?_eq_getElem hi]
  rw [List.getD_eq_getElem time 0 hi]
  simp only [Option.map_some', Option.getD_some]

theorem first_sample_of_hour_congr (time : List Nat) (t u : Nat)
    (h : hourIndex t = hourIndex u) :
    first_sample_of_hour time t = first_sample_of_hour time u := by
  unfold first_sample_of_hour
  rw [h]

theorem create_time_series_dayOfMonth_eq (now : Nat) :
    dayOfMonth ((create_time_series now).getD 0 0) =
      dayOfMonth ((create_time_series now).getD 23 0) := by
  unfold dayOfMonth
  rw [create_time_series_same_day now 0 (by norm_num),
    create_time_series_same_day now 23 (by norm_num)]

theorem main_without_forecast_ok (ext : Pvlib) (now : Nat) (resp : WeatherResponse)
    (lat lon : ℚ) (mount_type : String) (td : List Orientation)
    (htp : get_tracker_position ext lat lon (create_time_series now) mount_type =
      { logs := [], result := .ok td }) :
    main ext now resp lat lon mount_type "without_forecast" =
      { weather_fetched := false, logs := [],
        result := .ok (td, calculate_pv_generation ext
          (get_tracker_poa_global ext lat lon (create_time_series now) td
            (ext.get_clearsky lat lon (create_time_series now)))
          (tmy_day_weather (ext.get_pvgis_tmy lat lon)
            ((create_time_series now).getD 0 0))) } := by
  unfold main
  rw [if_neg (by decide : ¬("without_forecast" : String) = "with_forecast")]
  rw [if_pos rfl]
  simp only [htp]
  unfold without_forecast_day_guard
  rw [if_pos (create_time_series_dayOfMonth_eq now)]

/-! ## Claim theorems -/

/-- C4: For the `fixed` mount policy, for every timestamp in the input time
sequence and for every solar-position input, the output orientation is the
constant pair tilt = 30°, azimuth = 180° (and no error is logged). -/
theorem C4_fixed_orientation_constant (ext : Pvlib) (lat lon : ℚ) (time : List Nat) :
    get_tracker_position ext lat lon time "fixed" =
      { logs := [],
        result := .ok (List.replicate time.length
          { surface_tilt := 30, surface_azimuth := 180 }) } :=
  get_tracker_position_fixed_eq ext lat lon time

/-- C8: For every valid mount type (`fixed` or `dual_axis`) and every input
time sequence, the orientation table returned by `get_tracker_position` has
exactly as many rows as the input time sequence has timestamps. -/
theorem C8_orientation_length_matches_input (ext : Pvlib) (lat lon : ℚ)
    (time : List Nat) :
    (∃ td, (get_tracker_position ext lat lon time "fixed").result = .ok td ∧
      td.length = time.length) ∧
    (∃ td, (get_tracker_position ext lat lon time "dual_axis").result = .ok td ∧
      td.length = time.length) := by
  constructor
  · refine ⟨List.replicate time.length { surface_tilt := 30, surface_azimuth := 180 }, ?_, ?_⟩
    · rw [get_tracker_position_fixed_eq]
    · simp
  · refine ⟨dual_axis_rows ext lat lon time, ?_, ?_⟩
    · rw [get_tracker_position_dual_eq]
    · unfold dual_axis_rows; simp

/-- C2 (code bug): for every mount-type value outside `{fixed, dual_axis}`,
`get_tracker_position` only prints the unsupported-mount message and then
raises `UnboundLocalError` at `return tracker_data`; no `InvalidArgument`
error is returned or raised anywhere (the program has no such error value). -/
theorem C2_invalid_mount_logged_then_unbound (ext : Pvlib) (lat lon : ℚ)
    (time_interval : List Nat) (mount_type : String)
    (h1 : mount_type ≠ "fixed") (h2 : mount_type ≠ "dual_axis") :
    get_tracker_position ext lat lon time_interval mount_type =
      { logs := [mount_type_error_log],
        result := .error (.unboundLocal "tracker_data") } := by
  unfold get_tracker_position
  simp [h1, h2]

/-- Witness for C2 at the concrete failing input `mount_type = "invalid"`. -/
theorem C2_invalid_mount_logged_then_unbound_witness :
    get_tracker_position testPvlib 42 21 [0, 60] "invalid" =
      { logs := [mount_type_error_log],
        result := .error (.unboundLocal "tracker_data") } :=
  C2_invalid_mount_logged_then_unbound testPvlib 42 21 [0, 60] "invalid"
    (by decide) (by decide)

/-- C10: for every product-version value other than `with_forecast` and
`without_forecast`, `main` issues no weather fetch, prints nothing, computes
nothing, and fails at its `return` statement with `UnboundLocalError` on the
never-bound `tracker_data` instead of returning a result. -/
theorem C10_invalid_product_version_unbound (ext : Pvlib) (now : Nat)
    (resp : WeatherResponse) (lat lon : ℚ) (mount_type product_version : String)
    (h1 : product_version ≠ "with_forecast")
    (h2 : product_version ≠ "without_forecast") :
    main ext now resp lat lon mount_type product_version =
      { weather_fetched := false, logs := [],
        result := .error (.unboundLocal "tracker_data") } := by
  unfold main
  simp [h1, h2]

/-- Witness for C10 at the concrete input `product_version = "v2"`. -/
theorem C10_invalid_product_version_unbound_witness :
    main testPvlib 0 testResp 42 21 "fixed" "v2" =
      { weather_fetched := false, logs := [],
        result := .error (.unboundLocal "tracker_data") } :=
  C10_invalid_product_version_unbound testPvlib 0 testResp 42 21 "fixed" "v2"
    (by decide) (by decide)

/-- C5: an angle is serialized for the peripheral as a big-endian byte pair
(high byte = `angle div 256`, low byte = `angle mod 256`); `to_send` is the
two pairs for `angle1 = 3000` and `angle2 = 4560`, namely
`[0x0B, 0xB8, 0x11, 0xD0]`, and for every 16-bit angle the pair consists of
bytes and decodes back to the angle. -/
theorem C5_angle_big_endian_packing :
    to_send = packAngle angle1 ++ packAngle angle2 ∧
    to_send = [0x0B, 0xB8, 0x11, 0xD0] ∧
    ∀ a : Nat, a < 65536 →
      (packAngle a).getD 0 0 = a / 256 ∧
      (packAngle a).getD 1 0 = a % 256 ∧
      (packAngle a).getD 0 0 < 256 ∧ (packAngle a).getD 1 0 < 256 ∧
      256 * (packAngle a).getD 0 0 + (packAngle a).getD 1 0 = a := by
  refine ⟨rfl, by decide, ?_⟩
  intro a ha
  refine ⟨rfl, rfl, ?_, ?_, ?_⟩ <;> simp [packAngle] <;> omega

/-- Witness for C5 at the concrete angle 3000. -/
theorem C5_angle_big_endian_packing_witness :
    (packAngle 3000).getD 0 0 = 11 ∧ (packAngle 3000).getD 1 0 = 184 ∧
    256 * (packAngle 3000).getD 0 0 + (packAngle 3000).getD 1 0 = 3000 := by
  have h := C5_angle_big_endian_packing.2.2 3000 (by norm_num)
  exact ⟨h.1.trans (by norm_num), h.2.1.trans (by norm_num), h.2.2.2.2⟩

/-- C7: `create_time_series` returns exactly 24 timestamps at one-hour
spacing; the first is 00:00 of the calendar day after the current system
date, and the last is 23:00 of that same day. -/
theorem C7_create_time_series_shape (now i : Nat) (h : i + 1 < 24) :
    (create_time_series now).length = 24 ∧
    (create_time_series now).getD 0 0 % 1440 = 0 ∧
    dayIndex ((create_time_series now).getD 0 0) = dayIndex now + 1 ∧
    dayIndex ((create_time_series now).getD 23 0) = dayIndex now + 1 ∧
    hourOfDay ((create_time_series now).getD 23 0) = 23 ∧
    (create_time_series now).getD 23 0 % 60 = 0 ∧
    (create_time_series now).getD (i + 1) 0 = (create_time_series now).getD i 0 + 60 := by
  refine ⟨create_time_series_length now, ?_,
    create_time_series_same_day now 0 (by norm_num),
    create_time_series_same_day now 23 (by norm_num), ?_, ?_, ?_⟩
  · rw [create_time_series_getD now 0 (by norm_num)]
    generalize dayIndex now = a
    omega
  · rw [create_time_series_getD now 23 (by norm_num)]
    unfold hourOfDay
    generalize dayIndex now = a
    omega
  · rw [create_time_series_getD now 23 (by norm_num)]
    generalize dayIndex now = a
    omega
  · rw [create_time_series_getD now (i + 1) h,
      create_time_series_getD now i (by omega)]
    omega

/-- Witness for C7 at the concrete clock value 987654 (spacing at index 0). -/
theorem C7_create_time_series_shape_witness :
    (create_time_series 987654).length = 24 ∧
    (create_time_series 987654).getD 1 0 = (create_time_series 987654).getD 0 0 + 60 := by
  have h := C7_create_time_series_shape 987654 0 (by norm_num)
  exact ⟨h.1, h.2.2.2.2.2.2⟩

/-- C9: in the solar-position series used for tracker orientation, every row
whose apparent elevation is negative has all solar-position fields (apparent
zenith, zenith, apparent elevation, elevation, azimuth, equation of time) set
to zero by the night clamp, while its timestamp is kept. -/
theorem C9_negative_elevation_rows_zeroed (sp : List (Nat × SolarPos)) (i : Nat)
    (hi : i < sp.length)
    (hneg : (sp.getD i default).2.apparent_elevation < 0) :
    (clamp_night sp).length = sp.length ∧
    (clamp_night sp).getD i default =
      ((sp.getD i default).1,
        { apparent_zenith := 0, zenith := 0, apparent_elevation := 0,
          elevation := 0, azimuth := 0, equation_of_time := 0 }) := by
  constructor
  · unfold clamp_night; simp
  · rw [clamp_night_eq_map]
    have hgd : sp.getD i default = sp[i] := List.getD_eq_getElem sp default hi
    rw [List.getD_eq_getElem?_getD, List.getElem?_map, List.getElem?_eq_getElem hi]
    rw [hgd] at hneg ⊢
    simp only [Option.map_some', Option.getD_some]
    unfold clampRow
    rw [if_pos hneg]
    rfl

/-- Witness for C9 on a one-row series whose apparent elevation is −5°. -/
theorem C9_negative_elevation_rows_zeroed_witness :
    (clamp_night [(90, testNightRow)]).getD 0 default =
      (90, { apparent_zenith := 0, zenith := 0, apparent_elevation := 0,
             elevation := 0, azimuth := 0, equation_of_time := 0 }) := by
  have h := C9_negative_elevation_rows_zeroed [(90, testNightRow)] 0
    (by decide) (by decide)
  exact h.2.trans (by decide)

/-- C1: for the `dual_axis` mount policy, on a time-ordered input sequence,
the orientation table exists, has one row per timestamp, its tilt never
exceeds 30°, each row carries the night-clamped solar position of the first
sample of its own clock hour (tilt = clamped apparent zenith limited to 30°,
azimuth = that sample's azimuth), and any two timestamps in the same clock
hour receive identical rows (zero-order hold). -/
theorem C1_dual_axis_tilt_limit_and_zoh (ext : Pvlib) (lat lon : ℚ)
    (time : List Nat) (hord : time.Pairwise (· < ·)) (i j : Nat)
    (hi : i < time.length) (hj : j < time.length) :
    ∃ td, (get_tracker_position ext lat lon time "dual_axis").result = .ok td ∧
      td.length = time.length ∧
      (td.getD i default).surface_tilt ≤ 30 ∧
      (td.getD i default).surface_tilt =
        limit_tilt ((((first_sample_of_hour time (time.getD i 0)).map
          (fun u => clampRow (ext.get_solarposition lat lon u))).getD
            zeroSolarPos).apparent_zenith) ∧
      (td.getD i default).surface_azimuth =
        (((first_sample_of_hour time (time.getD i 0)).map
          (fun u => clampRow (ext.get_solarposition lat lon u))).getD
            zeroSolarPos).azimuth ∧
      (hourIndex (time.getD i 0) = hourIndex (time.getD j 0) →
        td.getD i default = td.getD j default) := by
  refine ⟨dual_axis_rows ext lat lon time, ?_, ?_, ?_, ?_, ?_, ?_⟩
  · rw [get_tracker_position_dual_eq]
  · unfold dual_axis_rows; simp
  · rw [dual_axis_rows_getD ext lat lon time i hi]
    exact limit_tilt_le _
  · rw [dual_axis_rows_getD ext lat lon time i hi]
  · rw [dual_axis_rows_getD ext lat lon time i hi]
  · intro hh
    rw [dual_axis_rows_getD ext lat lon time i hi,
      dual_axis_rows_getD ext lat lon time j hj]
    rw [first_sample_of_hour_congr time (time.getD i 0) (time.getD j 0) hh]

/-- Witness for C1 on the 15-minute-sampled sequence `[0, 30, 60, 90]`
(indices 1 and 0 lie in the same clock hour). -/
theorem C1_dual_axis_tilt_limit_and_zoh_witness :
    ∃ td, (get_tracker_position testPvlib 42 21 [0, 30, 60, 90] "dual_axis").result
        = .ok td ∧
      (td.getD 1 default).surface_tilt ≤ 30 ∧ td.getD 1 default = td.getD 0 default := by
  obtain ⟨td, h1, _h2, h3, _h4, _h5, h6⟩ :=
    C1_dual_axis_tilt_limit_and_zoh testPvlib 42 21 [0, 30, 60, 90] (by decide) 1 0
      (by decide) (by decide)
  exact ⟨td, h1, h3, h6 (by decide)⟩

/-- C6: for every successfully fetched weather table, the derived snow load
column has 24 entries and equals the elementwise product of the precipitation
and snow-fraction columns. -/
theorem C6_snow_load_elementwise_product (resp : WeatherResponse)
    (time : List Nat) (w : Weather)
    (h : get_location_data resp = .ok (time, w)) (t : Nat) (ht : t < 24) :
    w.snow_load.length = 24 ∧
    w.snow_load.getD t 0 = w.precipitation.getD t 0 * w.snow_fraction.getD t 0 := by
  unfold get_location_data at h
  dsimp only at h
  split at h
  · exact absurd h (by simp)
  · injection h with hpair
    have hw : w =
        { temperature := slice_second_day resp.temperature,
          ghi := slice_second_day resp.ghi_instant,
          dni := slice_second_day resp.dni_instant,
          dhi := slice_second_day resp.dif_instant,
          wind_speed := slice_second_day resp.windspeed,
          wind_direction := slice_second_day resp.winddirection,
          precipitation := slice_second_day resp.precipitation,
          snow_fraction := slice_second_day resp.snowfraction,
          snow_load := (List.range 24).map (fun u =>
            (slice_second_day resp.precipitation).getD u 0 *
              (slice_second_day resp.snowfraction).getD u 0) } :=
      (congrArg Prod.snd hpair).symm
    rw [hw]
    constructor
    · simp
    · rw [List.getD_eq_getElem?_getD, List.getElem?_map, List.getElem?_range ht]
      simp

/-- Witness for C6 on a 48-entry response with precipitation 2.0 and snow
fraction 0.5 everywhere: snow load 1.0. -/
theorem C6_snow_load_elementwise_product_witness :
    testWeather.snow_load.getD 0 0 =
      testWeather.precipitation.getD 0 0 * testWeather.snow_fraction.getD 0 0 ∧
    testWeather.snow_load.getD 0 0 = 1 := by
  have h := C6_snow_load_elementwise_product testResp testTime testWeather
    rfl 0 (by norm_num)
  refine ⟨h.2, ?_⟩
  have e1 : testWeather.snow_load.getD 0 0 = (2 : ℚ) * (1 / 2) := rfl
  rw [e1]
  norm_num

/-- C3: in the `without_forecast` product version, when the first and last
timestamps of the time range have distinct day-of-month values the run fails
(the error message is printed, `pv_power` is never bound, and the return
raises) without computing PV power; when they match, PV power is computed
from the TMY day weather; and the range generated by `create_time_series`
always lies within one calendar day, so the computation proceeds normally for
every valid mount type. -/
theorem C3_without_forecast_single_day (ext : Pvlib) (time : List Nat)
    (td : List Orientation) (poa : List ℚ) (tmy : List (Nat × TmyRow))
    (logs : List String) (now : Nat) (resp : WeatherResponse) (lat lon : ℚ)
    (mount_type : String) :
    (dayOfMonth (time.getD 0 0) ≠ dayOfMonth (time.getD 23 0) →
      without_forecast_day_guard ext time td poa tmy logs =
        { weather_fetched := false, logs := logs ++ [timeseries_error_log],
          result := .error (.unboundLocal "pv_power") }) ∧
    (dayOfMonth (time.getD 0 0) = dayOfMonth (time.getD 23 0) →
      without_forecast_day_guard ext time td poa tmy logs =
        { weather_fetched := false, logs := logs,
          result := .ok (td, calculate_pv_generation ext poa
            (tmy_day_weather tmy (time.getD 0 0))) }) ∧
    dayIndex ((create_time_series now).getD 0 0) =
      dayIndex ((create_time_series now).getD 23 0) ∧
    dayOfMonth ((create_time_series now).getD 0 0) =
      dayOfMonth ((create_time_series now).getD 23 0) ∧
    (mount_type = "fixed" ∨ mount_type = "dual_axis" →
      ∃ td2 pv, main ext now resp lat lon mount_type "without_forecast" =
        { weather_fetched := false, logs := [], result := .ok (td2, pv) }) := by
  refine ⟨?_, ?_, ?_, create_time_series_dayOfMonth_eq now, ?_⟩
  · intro hne
    unfold without_forecast_day_guard
    rw [if_neg hne]
  · intro heq
    unfold without_forecast_day_guard
    rw [if_pos heq]
  · rw [create_time_series_same_day now 0 (by norm_num),
      create_time_series_same_day now 23 (by norm_num)]
  · rintro (rfl | rfl)
    · exact ⟨_, _, main_without_forecast_ok ext now resp lat lon "fixed" _
        (get_tracker_position_fixed_eq ext lat lon (create_time_series now))⟩
    · exact ⟨_, _, main_without_forecast_ok ext now resp lat lon "dual_axis" _
        (get_tracker_position_dual_eq ext lat lon (create_time_series now))⟩

/-- Witness for C3: a midnight-crossing 24-stamp range aborts with the error
log and unbound `pv_power`; the generated range keeps one day-of-month; and a
concrete `without_forecast` run with the `fixed` mount returns a PV result. -/
theorem C3_without_forecast_single_day_witness :
    without_forecast_day_guard testPvlib testBadTime [] [] [] [] =
      { weather_fetched := false, logs := [] ++ [timeseries_error_log],
        result := .error (.unboundLocal "pv_power") } ∧
    dayOfMonth ((create_time_series 777).getD 0 0) =
      dayOfMonth ((create_time_series 777).getD 23 0) ∧
    ∃ td2 pv, main testPvlib 777 testResp 42 21 "fixed" "without_forecast" =
      { weather_fetched := false, logs := [], result := .ok (td2, pv) } := by
  have h := C3_without_forecast_single_day testPvlib testBadTime [] [] [] [] 777
    testResp 42 21 "fixed"
  exact ⟨h.1 (by decide), h.2.2.2.1, h.2.2.2.2 (Or.inl rfl)⟩

end Spi
